import Mathlib

/-!
Verification of the ai-developer-tutor backend core: the mode router, the
dialogue orchestrator (`executeGraph` in `graphManager.ts`), the quiz engine
(`generateQuizQuestions` and the quiz-submission route handler), and the
upgrade-tier flow. Each JavaScript/TypeScript function is embedded as an
executable Lean definition; external collaborators (the OpenAI completion
call, the database, the clock) are passed in as explicit parameters so that
call counts and failure outcomes can be reasoned about.
-/

namespace Tutor

/-! ## String primitives

The source manipulates JavaScript strings with `toLowerCase`, `includes`,
`match` and template literals.  We embed strings as Lean `String` and work on
their underlying `List Char` where scanning is needed.  `toLowerCase` is
modelled on the ASCII range (all keywords in the source are ASCII). -/

/-- Predicate `leadsWith needle hay` : does `hay` start with `needle`? (exact chars). -/
def leadsWith : List Char → List Char → Bool
  | [], _ => true
  | _ :: _, [] => false
  | p :: ps, h :: hs => p == h && leadsWith ps hs

/-- Predicate `containsSub hay needle` : does `needle` occur contiguously in `hay`?
This is JavaScript `hay.includes(needle)`. -/
def containsSub (hay needle : List Char) : Bool :=
  match hay with
  | [] => needle.isEmpty
  | _ :: t => leadsWith needle hay || containsSub t needle

/-- JavaScript `String.includes`. -/
def strContains (hay needle : String) : Bool :=
  containsSub hay.data needle.data

/-- ASCII `toLowerCase`. -/
def lowerStr (s : String) : String :=
  ⟨s.data.map Char.toLower⟩

/-! ## Mode Router (`LangGraphManager.determineNode`, graphManager.ts:52-71) -/

/-- Embedding of `determineNode`: lowercase the input, then an `if`/`else`
chain over `includes` checks for the four keyword groups. -/
def determineNode (userInput : String) : String :=
  let input := lowerStr userInput
  if strContains input "code" || strContains input "debug" ||
     strContains input "review" || strContains input "feedback" then
    "code-feedback"
  else if strContains input "quiz" || strContains input "test" ||
          strContains input "question" || strContains input "practice" then
    "quiz-generator"
  else if strContains input "progress" || strContains input "mistake" ||
          strContains input "track" || strContains input "analysis" then
    "mistake-analyzer"
  else
    "concept-explainer"

/-- The four ordered keyword groups of the spec (§4.1), highest priority
first. -/
def keywordGroups : List (List String × String) :=
  [(["code", "debug", "review", "feedback"], "code-feedback"),
   (["quiz", "test", "question", "practice"], "quiz-generator"),
   (["progress", "mistake", "track", "analysis"], "mistake-analyzer")]

/-- First group whose keyword list has a member occurring in `input` wins;
no group matching falls through to the default tag. -/
def firstMatchingGroup (input : String) : List (List String × String) → String
  | [] => "concept-explainer"
  | g :: rest =>
    if g.1.any (fun k => strContains input k) then g.2
    else firstMatchingGroup input rest

/-- The router as the spec words it: case-insensitive substring match against
the four ordered keyword groups, first match wins, default tag otherwise. -/
def determineModeSpec (userInput : String) : String :=
  firstMatchingGroup (lowerStr userInput) keywordGroups

/-- C2: the mode router is a pure total function over all strings that, after
lowercasing, returns the tag of the first keyword group (in the fixed
priority order code > quiz > progress) containing a substring of the input,
defaulting to `concept-explainer`; the empty string maps to
`concept-explainer`. -/
theorem determineNode_first_match_priority :
    (∀ s : String, determineNode s = determineModeSpec s) ∧
    determineNode "" = "concept-explainer" := by
  refine ⟨fun s => ?_, by decide⟩
  simp only [determineNode, determineModeSpec, keywordGroups, firstMatchingGroup,
    List.any_cons, List.any_nil, Bool.or_false, Bool.or_assoc]

/-! ## Quiz data model and answer grading
(`POST /api/quiz/sessions/:sessionId/submit` handler, routes/quiz.ts) -/

/-- A stored quiz question, the shape produced by
`generateQuizQuestions`'s mapping step. -/
structure QuizQuestion where
  id : String
  type : String
  question : String
  options : List String
  code_snippet : String
  correct_answer : String
  explanation : String
  difficulty : String
  concepts : List String
deriving DecidableEq

/-- An answer as submitted by the client:
`{ question_id, user_answer, time_taken }`. -/
structure SubmittedAnswer where
  question_id : String
  user_answer : String
  time_taken : Nat
deriving DecidableEq

/-- A graded answer as stored by the submit handler. -/
structure QuizAnswer where
  question_id : String
  user_answer : String
  is_correct : Bool
  time_taken : Nat
  timestamp : String
deriving DecidableEq

/-- Embedding of `questions.find(qq => qq.id === ans.question_id)`. -/
def findQuestion (questions : List QuizQuestion) (qid : String) : Option QuizQuestion :=
  questions.find? (fun qq => qq.id == qid)

/-- Embedding of `q && ans.user_answer === q.correct_answer` — a missing question makes the
answer incorrect, otherwise exact string comparison, no normalization. -/
def answerIsCorrect (questions : List QuizQuestion) (a : SubmittedAnswer) : Bool :=
  match findQuestion questions a.question_id with
  | some q => a.user_answer == q.correct_answer
  | none => false

/-- The `answers.map(...)` loop of the submit handler: builds the detailed
answer list while accumulating `score` through the closure's `score++`. -/
def gradeAnswers (questions : List QuizQuestion) (answers : List SubmittedAnswer)
    (now : String) : Nat × List QuizAnswer :=
  match answers with
  | [] => (0, [])
  | ans :: rest =>
    let isCorrect :=
      match findQuestion questions ans.question_id with
      | some q => ans.user_answer == q.correct_answer
      | none => false
    let acc := gradeAnswers questions rest now
    ((if isCorrect then 1 else 0) + acc.1,
     { question_id := ans.question_id, user_answer := ans.user_answer,
       is_correct := isCorrect, time_taken := ans.time_taken,
       timestamp := now } :: acc.2)

/-- One `{question, correct_answer, explanation}` record; the handler reads
the fields through `q?.`, so they are absent when the question id does not
resolve. -/
structure WrongExplanation where
  question : Option String
  correct_answer : Option String
  explanation : Option String
deriving DecidableEq

/-- The `wrongExplanations` construction: filter the graded answers to the
incorrect ones and look each question up again by id. -/
def wrongExplanationsOf (questions : List QuizQuestion) (detailed : List QuizAnswer) :
    List WrongExplanation :=
  (detailed.filter (fun a => !a.is_correct)).map (fun a =>
    let q := findQuestion questions a.question_id
    { question := q.map (·.question),
      correct_answer := q.map (·.correct_answer),
      explanation := q.map (·.explanation) })

/-- The response body of the submit route:
`{ score, total_questions, wrong_explanations }`. -/
structure SubmitResult where
  score : Nat
  total_questions : Nat
  wrong_explanations : List WrongExplanation
deriving DecidableEq

/-- The pure core of `POST /api/quiz/sessions/:sessionId/submit`: grade the
submitted answers against the stored questions and build the response. -/
def submitAnswers (questions : List QuizQuestion) (answers : List SubmittedAnswer)
    (now : String) : SubmitResult :=
  let graded := gradeAnswers questions answers now
  { score := graded.1,
    total_questions := questions.length,
    wrong_explanations := wrongExplanationsOf questions graded.2 }

/-- How one submitted answer appears in the stored `answers` list. -/
def gradedAnswer (questions : List QuizQuestion) (now : String)
    (a : SubmittedAnswer) : QuizAnswer :=
  { question_id := a.question_id, user_answer := a.user_answer,
    is_correct := answerIsCorrect questions a, time_taken := a.time_taken,
    timestamp := now }

theorem gradeAnswers_eq (questions : List QuizQuestion)
    (answers : List SubmittedAnswer) (now : String) :
    gradeAnswers questions answers now =
      (answers.countP (answerIsCorrect questions),
       answers.map (gradedAnswer questions now)) := by
  induction answers with
  | nil => rfl
  | cons a rest ih =>
    simp only [gradeAnswers, ih, List.map_cons, List.countP_cons, gradedAnswer,
      answerIsCorrect]
    rw [Nat.add_comm]

theorem wrongExplanationsOf_graded (questions : List QuizQuestion)
    (answers : List SubmittedAnswer) (now : String) :
    wrongExplanationsOf questions (answers.map (gradedAnswer questions now)) =
      (answers.filter (fun a => !answerIsCorrect questions a)).map (fun a =>
        let q := findQuestion questions a.question_id
        { question := q.map (·.question),
          correct_answer := q.map (·.correct_answer),
          explanation := q.map (·.explanation) }) := by
  induction answers with
  | nil => rfl
  | cons a rest ih =>
    simp only [wrongExplanationsOf, List.map_cons, List.filter_cons] at *
    cases hc : answerIsCorrect questions a <;>
      simp only [gradedAnswer, hc, Bool.not_false, Bool.not_true, if_pos, if_neg,
        Bool.false_eq_true, not_false_eq_true, List.map_cons] <;>
      simp only [← ih]

theorem countP_filter_not_length {α : Type} (p : α → Bool) (l : List α) :
    l.countP p + (l.filter (fun a => !p a)).length = l.length := by
  induction l with
  | nil => rfl
  | cons a rest ih =>
    simp only [List.countP_cons, List.filter_cons]
    cases h : p a <;> simp [h, ← ih] <;> omega

/-- C1: for every stored question list and submitted answer list, the submit
operation returns `score` = the number of submitted answers whose
`user_answer` is exactly string-equal to the `correct_answer` of the question
matching its `question_id`, `total_questions` = the question-list length, and
`wrong_explanations` containing exactly one `{question, correct_answer,
explanation}` record per incorrect submitted answer; in particular a
5-question quiz with 5 submitted answers of which exactly 2 match yields
`score = 2` and 3 wrong-explanation records. -/
theorem submitAnswers_grading (questions : List QuizQuestion)
    (answers : List SubmittedAnswer) (now : String) :
    ((submitAnswers questions answers now).score =
       answers.countP (answerIsCorrect questions) ∧
     (submitAnswers questions answers now).total_questions = questions.length ∧
     (submitAnswers questions answers now).wrong_explanations =
       (answers.filter (fun a => !answerIsCorrect questions a)).map (fun a =>
         let q := findQuestion questions a.question_id
         { question := q.map (·.question),
           correct_answer := q.map (·.correct_answer),
           explanation := q.map (·.explanation) })) ∧
    (questions.length = 5 → answers.length = 5 →
     answers.countP (answerIsCorrect questions) = 2 →
     (submitAnswers questions answers now).score = 2 ∧
     (submitAnswers questions answers now).wrong_explanations.length = 3) := by
  have hmain :
      (submitAnswers questions answers now).score =
        answers.countP (answerIsCorrect questions) ∧
      (submitAnswers questions answers now).total_questions = questions.length ∧
      (submitAnswers questions answers now).wrong_explanations =
        (answers.filter (fun a => !answerIsCorrect questions a)).map (fun a =>
          let q := findQuestion questions a.question_id
          { question := q.map (·.question),
            correct_answer := q.map (·.correct_answer),
            explanation := q.map (·.explanation) }) := by
    refine ⟨?_, rfl, ?_⟩
    · simp [submitAnswers, gradeAnswers_eq]
    · simp only [submitAnswers, gradeAnswers_eq]
      exact wrongExplanationsOf_graded questions answers now
  refine ⟨hmain, fun hq ha hc => ⟨?_, ?_⟩⟩
  · rw [hmain.1, hc]
  · rw [hmain.2.2, List.length_map]
    have := countP_filter_not_length (answerIsCorrect questions) answers
    omega

/-- A concrete 5-question quiz used to instantiate the grading theorem. -/
def c1Questions : List QuizQuestion :=
  [⟨"1", "mcq", "What is 1+1?", ["1", "2", "3", "4"], "", "b", "Basic sum", "beginner", ["math"]⟩,
   ⟨"2", "mcq", "What is let?", ["kw", "fn", "op", "tag"], "", "a", "Keyword", "beginner", ["js"]⟩,
   ⟨"3", "mcq", "What is map?", ["loop", "fn", "arr", "obj"], "", "b", "Function", "beginner", ["js"]⟩,
   ⟨"4", "mcq", "What is ===?", ["eq", "neq", "lt", "gt"], "", "a", "Strict eq", "beginner", ["js"]⟩,
   ⟨"5", "mcq", "What is [] ?", ["obj", "arr", "str", "num"], "", "b", "Array", "beginner", ["js"]⟩]

/-- A concrete full answer set where exactly the first two answers match. -/
def c1Answers : List SubmittedAnswer :=
  [⟨"1", "b", 3⟩, ⟨"2", "a", 4⟩, ⟨"3", "c", 5⟩, ⟨"4", "b", 2⟩, ⟨"5", "d", 1⟩]

/-- Witness for C1: the 5-question, exactly-2-matching instance evaluates to
`score = 2` and 3 wrong-explanation records. -/
theorem submitAnswers_grading_witness :
    (c1Questions.length = 5 ∧ c1Answers.length = 5 ∧
     c1Answers.countP (answerIsCorrect c1Questions) = 2) ∧
    (submitAnswers c1Questions c1Answers "2025-01-01").score = 2 ∧
    (submitAnswers c1Questions c1Answers "2025-01-01").wrong_explanations.length = 3 :=
  ⟨⟨by decide, by decide, by decide⟩,
   (submitAnswers_grading c1Questions c1Answers "2025-01-01").2
     (by decide) (by decide) (by decide)⟩

/-! ## Quiz session records and updates
(`db.updateQuizSession` applies a partial update;
`PATCH /api/quiz/sessions/:sessionId` forwards the request body as-is;
the submit handler stores `{answers, score, completed: true, completed_at}`.) -/

/-- A stored quiz session row. -/
structure QuizSessionRec where
  user_id : String
  questions : List QuizQuestion
  answers : List QuizAnswer
  score : Nat
  total_questions : Nat
  completed : Bool
  completed_at : Option String
deriving DecidableEq

/-- A `Partial<QuizSession>` update payload: any subset of columns. -/
structure QuizSessionUpdates where
  user_id : Option String := none
  questions : Option (List QuizQuestion) := none
  answers : Option (List QuizAnswer) := none
  score : Option Nat := none
  total_questions : Option Nat := none
  completed : Option Bool := none
  completed_at : Option (Option String) := none
deriving DecidableEq

/-- Embedding of `db.updateQuizSession`: `.update({ ...updates })` sets exactly the
provided columns and leaves the rest unchanged. -/
def updateQuizSession (s : QuizSessionRec) (u : QuizSessionUpdates) : QuizSessionRec :=
  { user_id := u.user_id.getD s.user_id,
    questions := u.questions.getD s.questions,
    answers := u.answers.getD s.answers,
    score := u.score.getD s.score,
    total_questions := u.total_questions.getD s.total_questions,
    completed := u.completed.getD s.completed,
    completed_at := u.completed_at.getD s.completed_at }

/-- The `PATCH /api/quiz/sessions/:sessionId` handler: the request body is
forwarded to `db.updateQuizSession` unchanged. -/
def patchQuizSession (s : QuizSessionRec) (body : QuizSessionUpdates) : QuizSessionRec :=
  updateQuizSession s body

/-- The submit handler's effect on the stored session plus its response:
grade, store `{answers, score, completed: true, completed_at}`, and respond
with `{score, total_questions: questions.length, wrong_explanations}`. -/
def submitQuizSession (s : QuizSessionRec) (answers : List SubmittedAnswer)
    (now : String) : QuizSessionRec × SubmitResult :=
  let graded := gradeAnswers s.questions answers now
  (updateQuizSession s
     { answers := some graded.2, score := some graded.1,
       completed := some true, completed_at := some (some now) },
   submitAnswers s.questions answers now)

/-- Counterexample for C7: `completed` is not one-way — the generic PATCH
endpoint forwards `{completed: false}` and reverts the flag — and a completed
session's stored `answers` list can be shorter than its `questions` list
(here: one answer submitted against a two-question quiz). -/
theorem completed_flag_counterexample :
    (patchQuizSession
        ⟨"u", [], [], 0, 0, true, some "t"⟩
        { completed := some false }).completed = false ∧
    ((submitQuizSession
        ⟨"u", [⟨"1", "mcq", "Q1", ["x", "y", "z", "w"], "", "a", "E", "beginner", ["t"]⟩,
               ⟨"2", "mcq", "Q2", ["x", "y", "z", "w"], "", "b", "E", "beginner", ["t"]⟩],
          [], 0, 2, false, none⟩
        [⟨"1", "a", 0⟩] "t").1.completed = true ∧
     (submitQuizSession
        ⟨"u", [⟨"1", "mcq", "Q1", ["x", "y", "z", "w"], "", "a", "E", "beginner", ["t"]⟩,
               ⟨"2", "mcq", "Q2", ["x", "y", "z", "w"], "", "b", "E", "beginner", ["t"]⟩],
          [], 0, 2, false, none⟩
        [⟨"1", "a", 0⟩] "t").1.answers.length = 1 ∧
     (submitQuizSession
        ⟨"u", [⟨"1", "mcq", "Q1", ["x", "y", "z", "w"], "", "a", "E", "beginner", ["t"]⟩,
               ⟨"2", "mcq", "Q2", ["x", "y", "z", "w"], "", "b", "E", "beginner", ["t"]⟩],
          [], 0, 2, false, none⟩
        [⟨"1", "a", 0⟩] "t").1.questions.length = 2) := by
  decide

/-- C7 (amended): every submission sets `completed` to true and no submission
reverts it (though the generic PATCH update can); submission never changes
the stored `questions` or `total_questions` columns; the response's
`total_questions` equals the stored question count on every submission,
including a repeated one; and the stored `answers` list after a submission
has the length of the submitted answer list. -/
theorem completed_flag_amended (s : QuizSessionRec)
    (answers : List SubmittedAnswer) (now : String) :
    (submitQuizSession s answers now).1.completed = true ∧
    (submitQuizSession s answers now).1.questions = s.questions ∧
    (submitQuizSession s answers now).1.total_questions = s.total_questions ∧
    (submitQuizSession s answers now).2.total_questions = s.questions.length ∧
    (submitQuizSession s answers now).1.answers.length = answers.length ∧
    (∀ answers2 now2,
      (submitQuizSession ((submitQuizSession s answers now).1) answers2 now2).2.total_questions
        = s.questions.length) := by
  refine ⟨rfl, rfl, rfl, rfl, ?_, fun answers2 now2 => rfl⟩
  simp [submitQuizSession, updateQuizSession, gradeAnswers_eq]

/-! ## Quiz generation (`LangGraphManager.generateQuizQuestions`,
graphManager.ts:525-585) -/

/-- The `options` field of a raw model-produced question: a labeled object
`{a, b, c, d}` (possibly with keys missing), an array, or anything else. -/
inductive RawOptions
  | obj (a b c d : Option String)
  | arr (l : List String)
  | other
deriving DecidableEq

/-- The options mapping of `generateQuizQuestions`: a non-array object is
read key-by-key in the fixed order `['a','b','c','d']` with
`q.options[key] || ''`; an array passes through; anything else yields the
initial empty list. -/
def normalizeOptions : RawOptions → List String
  | .obj a b c d => [a.getD "", b.getD "", c.getD "", d.getD ""]
  | .arr l => l
  | .other => []

/-- Counterexample for C5: an array source is passed through unchanged, so an
array that is not 4 elements long does not normalize to a 4-element list. -/
theorem normalizeOptions_counterexample :
    normalizeOptions (RawOptions.arr ["X"]) = ["X"] ∧
    (normalizeOptions (RawOptions.arr ["X"])).length ≠ 4 := by
  decide

/-- C5 (amended): a labeled `{a: X, b: Y, c: Z, d: W}` object normalizes to
the ordered list `[X, Y, Z, W]`; normalization is the identity on an array
source (hence idempotent); a labeled object always yields 4 elements, and an
array source yields 4 elements exactly when the array itself has 4. -/
theorem normalizeOptions_amended :
    (∀ x y z w : String,
      normalizeOptions (.obj (some x) (some y) (some z) (some w)) = [x, y, z, w]) ∧
    (∀ l : List String, normalizeOptions (.arr l) = l) ∧
    (∀ l : List String, normalizeOptions (.arr (normalizeOptions (.arr l))) =
      normalizeOptions (.arr l)) ∧
    (∀ a b c d : Option String, (normalizeOptions (.obj a b c d)).length = 4) ∧
    (∀ l : List String, l.length = 4 → (normalizeOptions (.arr l)).length = 4) := by
  exact ⟨fun x y z w => rfl, fun l => rfl, fun l => rfl, fun a b c d => rfl,
    fun l h => h⟩

/-- Witness for C5 (amended), at the spec's own example values. -/
theorem normalizeOptions_amended_witness :
    normalizeOptions (.obj (some "X") (some "Y") (some "Z") (some "W"))
      = ["X", "Y", "Z", "W"] ∧
    normalizeOptions (.arr ["X", "Y", "Z", "W"]) = ["X", "Y", "Z", "W"] ∧
    (normalizeOptions (.arr ["X", "Y", "Z", "W"])).length = 4 :=
  ⟨normalizeOptions_amended.1 "X" "Y" "Z" "W",
   normalizeOptions_amended.2.1 ["X", "Y", "Z", "W"],
   normalizeOptions_amended.2.2.2.2 ["X", "Y", "Z", "W"] (by decide)⟩

/-- Case-insensitive `leadsWith` (ASCII case folding), used for the
`/```json|```/gi` replacement. -/
def leadsWithCI : List Char → List Char → Bool
  | [], _ => true
  | _ :: _, [] => false
  | p :: ps, h :: hs => Char.toLower p == Char.toLower h && leadsWithCI ps hs

/-- Fuelled scanner for the `/```json|```/gi` replacement; every step
consumes at least one character, so fuel equal to the input length is
enough. -/
def stripCodeFencesGo : Nat → List Char → List Char
  | 0, cs => cs
  | _ + 1, [] => []
  | fuel + 1, c :: rest =>
    if leadsWithCI "```json".data (c :: rest) then
      stripCodeFencesGo fuel (rest.drop 6)
    else if leadsWithCI "```".data (c :: rest) then
      stripCodeFencesGo fuel (rest.drop 2)
    else
      c :: stripCodeFencesGo fuel rest

/-- Embedding of `content.replace(/```json|```/gi, '')`: scan left to right, removing
`"```json"` (preferred, the left alternative) or ```` "```" ```` wherever one
starts, continuing after the removed text. -/
def stripCodeFences (cs : List Char) : List Char :=
  stripCodeFencesGo cs.length cs

/-- JavaScript `String.trim`, on the whitespace characters Lean knows. -/
def jsTrim (cs : List Char) : List Char :=
  ((cs.dropWhile Char.isWhitespace).reverse.dropWhile Char.isWhitespace).reverse

/-- The suffix of `cs` starting at its first `'['`, if any. -/
def fromFirstOpenBracket : List Char → Option (List Char)
  | [] => none
  | c :: rest => if c == '[' then some (c :: rest) else fromFirstOpenBracket rest

/-- The longest prefix of `cs` that ends with `']'`, if any. -/
def upToLastCloseBracket (cs : List Char) : Option (List Char) :=
  match cs.reverse.dropWhile (fun c => !(c == ']')) with
  | [] => none
  | l => some l.reverse

/-- Embedding of `content.match(/\[.*\]/s)`: the leftmost-starting, greedy match runs from
the first `'['` to the last `']'` after it; `none` when no such pair exists. -/
def extractJsonArray (cs : List Char) : Option (List Char) :=
  (fromFirstOpenBracket cs).bind upToLastCloseBracket

/-- JavaScript `x || y` on strings: the empty string is falsy. -/
def jsOrStr : Option String → String → String
  | some s, y => if s == "" then y else s
  | none, y => y

/-- Embedding of `(difficulty || userPreferences.difficulty || 'beginner').toLowerCase()`. -/
def effectiveDifficulty (difficulty prefDifficulty : Option String) : String :=
  lowerStr (jsOrStr difficulty (jsOrStr prefDifficulty "beginner"))

/-- A raw question object as decoded from the model's JSON array. -/
structure RawQuestion where
  question : Option String := none
  options : RawOptions := .other
  code_snippet : Option String := none
  answer : Option String := none
  explanation : Option String := none
deriving DecidableEq

/-- A question object as returned by `generateQuizQuestions`. Every field is
optional because the parse-failure placeholders carry only `question`. -/
structure GenQuestion where
  id : Option String := none
  type : Option String := none
  question : Option String := none
  options : Option (List String) := none
  code_snippet : Option String := none
  correct_answer : Option String := none
  explanation : Option String := none
  difficulty : Option String := none
  concepts : Option (List String) := none
deriving DecidableEq

/-- The per-question mapping step of `generateQuizQuestions`. -/
def mapRawQuestion (topic quizDifficulty : String) (nowMs idx : Nat)
    (q : RawQuestion) : GenQuestion :=
  { id := some (toString nowMs ++ "_" ++ toString idx),
    type := some "mcq",
    question := some (q.question.getD ""),
    options := some (normalizeOptions q.options),
    code_snippet := some (q.code_snippet.getD ""),
    correct_answer := some (q.answer.getD ""),
    explanation := some (q.explanation.getD ""),
    difficulty := some quizDifficulty,
    concepts := some [topic] }

/-- Placeholder `{ question: `No quiz generated for topic: ...` }` — the no-JSON-array
fallback. -/
def noQuizPlaceholder (topic : String) : GenQuestion :=
  { question := some ("No quiz generated for topic: " ++ topic) }

/-- Placeholder `{ question: `Failed to generate quiz for topic: ...` }` — the
catch-block fallback. -/
def failedQuizPlaceholder (topic : String) : GenQuestion :=
  { question := some ("Failed to generate quiz for topic: " ++ topic) }

/-- The outcome of the completion collaborator call inside
`generateQuizQuestions`: a thrown error, or the returned text (after the
`|| ''` default). -/
inductive CompletionOutcome
  | err
  | ok (content : String)
deriving DecidableEq

/-- Embedding of `generateQuizQuestions`. `parseJsonArray` stands for
`JSON.parse` on the extracted array text (`none` models a parse exception,
which the surrounding `catch` turns into the failed placeholder);
`outcome` is the completion collaborator's behavior. -/
def generateQuizQuestions
    (parseJsonArray : String → Option (List RawQuestion))
    (outcome : CompletionOutcome)
    (topic : String) (difficulty prefDifficulty : Option String)
    (nowMs : Nat) : List GenQuestion :=
  let quizDifficulty := effectiveDifficulty difficulty prefDifficulty
  match outcome with
  | .err => [failedQuizPlaceholder topic]
  | .ok content =>
    let cleaned := jsTrim (stripCodeFences content.data)
    match extractJsonArray cleaned with
    | none => [noQuizPlaceholder topic]
    | some arrText =>
      match parseJsonArray (String.mk arrText) with
      | none => [failedQuizPlaceholder topic]
      | some raws =>
        raws.enum.map (fun p => mapRawQuestion topic quizDifficulty nowMs p.1 p.2)

/-- C4: for every topic, whenever the completion collaborator throws, or its
returned text (after fence stripping and trimming) holds no JSON array, or
the extracted array text fails to parse, `generateQuizQuestions` returns a
non-empty list consisting of exactly one degenerate placeholder question —
it neither propagates the failure nor returns an empty list. -/
theorem generateQuizQuestions_failure_placeholder
    (parseJsonArray : String → Option (List RawQuestion))
    (outcome : CompletionOutcome)
    (topic : String) (difficulty prefDifficulty : Option String) (nowMs : Nat)
    (hfail : outcome = .err ∨
      ∃ content, outcome = .ok content ∧
        (extractJsonArray (jsTrim (stripCodeFences content.data)) = none ∨
         ∃ arrText,
           extractJsonArray (jsTrim (stripCodeFences content.data)) = some arrText ∧
           parseJsonArray (String.mk arrText) = none)) :
    (generateQuizQuestions parseJsonArray outcome topic difficulty prefDifficulty nowMs
       = [noQuizPlaceholder topic] ∨
     generateQuizQuestions parseJsonArray outcome topic difficulty prefDifficulty nowMs
       = [failedQuizPlaceholder topic]) ∧
    generateQuizQuestions parseJsonArray outcome topic difficulty prefDifficulty nowMs
      ≠ [] := by
  rcases hfail with h | ⟨content, hok, hin⟩
  · subst h
    exact ⟨Or.inr rfl, by simp [generateQuizQuestions]⟩
  · subst hok
    rcases hin with hnone | ⟨arrText, hsome, hparse⟩
    · refine ⟨Or.inl ?_, ?_⟩ <;> simp [generateQuizQuestions, hnone]
    · refine ⟨Or.inr ?_, ?_⟩ <;> simp [generateQuizQuestions, hsome, hparse]

/-- Witness for C4: a fence-wrapped reply with no JSON array inside yields
exactly the single no-quiz placeholder. -/
theorem generateQuizQuestions_failure_witness :
    generateQuizQuestions (fun _ => none)
        (.ok "```json\nSorry, I cannot produce a quiz.\n```")
        "closures" none none 42
      = [noQuizPlaceholder "closures"] ∧
    generateQuizQuestions (fun _ => none)
        (.ok "```json\nSorry, I cannot produce a quiz.\n```")
        "closures" none none 42 ≠ [] := by
  have h := generateQuizQuestions_failure_placeholder (fun _ => none)
    (.ok "```json\nSorry, I cannot produce a quiz.\n```")
    "closures" none none 42
    (Or.inr ⟨_, rfl, Or.inl (by decide)⟩)
  exact ⟨h.1.resolve_right (by decide), h.2⟩

/-! ## Quiz follow-up question-reference matching
(`executeGraph`, graphManager.ts:375-382).  The source tests
`/(question\s*\d+|q\d+|answer to \d+)/i` and then extracts the number with
`/question\s*(\d+)/i`, `/q(\d+)/i`, `/answer to (\d+)/i` in that order. -/

/-- JavaScript `\s` on the ASCII range. -/
def jsWhitespaceChar (c : Char) : Bool :=
  c == ' ' || c == '\t' || c == '\n' || c == '\r' ||
  c == Char.ofNat 11 || c == Char.ofNat 12

/-- JavaScript `parseInt` on a run of decimal digits. -/
def digitsToNat (ds : List Char) : Nat :=
  ds.foldl (fun n c => n * 10 + (c.toNat - 48)) 0

/-- Helper `dropCIWord w cs`: strip the case-insensitive literal `w` from the front
of `cs`. -/
def dropCIWord : List Char → List Char → Option (List Char)
  | [], cs => some cs
  | _ :: _, [] => none
  | p :: ps, c :: cs =>
    if Char.toLower p == Char.toLower c then dropCIWord ps cs else none

/-- Try the pattern `<word>` (case-insensitive) followed by `\s*` (when
`allowWs`) and then `\d+` at the head of `cs`; produce the parsed captured
number. -/
def matchNumAt (allowWs : Bool) (word cs : List Char) : Option Nat :=
  match dropCIWord word cs with
  | none => none
  | some rest =>
    let rest2 := if allowWs then rest.dropWhile jsWhitespaceChar else rest
    let ds := rest2.takeWhile Char.isDigit
    if ds.isEmpty then none else some (digitsToNat ds)

/-- Leftmost match of `<word>\s*?(\d+)` in the input (regex `match`
semantics: earliest starting position wins, digits captured greedily). -/
def findNumRef (allowWs : Bool) (word : List Char) : List Char → Option Nat
  | [] => none
  | c :: rest =>
    match matchNumAt allowWs word (c :: rest) with
    | some n => some n
    | none => findNumRef allowWs word rest

/-- The extraction cascade of graphManager.ts:378-380: `question\s*(\d+)`,
then `q(\d+)`, then `answer to (\d+)`, all case-insensitive. -/
def extractQuestionRef (cs : List Char) : Option Nat :=
  match findNumRef true "question".data cs with
  | some n => some n
  | none =>
    match findNumRef false "q".data cs with
    | some n => some n
    | none => findNumRef false "answer to ".data cs

/-- The guard regex `/(question\s*\d+|q\d+|answer to \d+)/i.test(userInput)`:
some position matches some alternative. -/
def questionRefTest (cs : List Char) : Bool :=
  (findNumRef true "question".data cs).isSome ||
  (findNumRef false "q".data cs).isSome ||
  (findNumRef false "answer to ".data cs).isSome

theorem questionRefTest_of_extract {cs : List Char} {n : Nat}
    (h : extractQuestionRef cs = some n) : questionRefTest cs = true := by
  unfold extractQuestionRef at h
  unfold questionRefTest
  cases h1 : findNumRef true "question".data cs with
  | some m => simp [h1]
  | none =>
    rw [h1] at h
    cases h2 : findNumRef false "q".data cs with
    | some m => simp [h1, h2]
    | none =>
      rw [h2] at h
      simp only [] at h
      simp [h1, h2, h]

/-! ## Quiz follow-up response construction (graphManager.ts:383-398) -/

/-- Embedding of `q.options.map((opt, idx) => `${String.fromCharCode(65 + idx)}) ${opt}`)`. -/
def optionLines : Nat → List String → List String
  | _, [] => []
  | i, opt :: rest =>
    (String.singleton (Char.ofNat (65 + i)) ++ ") " ++ opt) :: optionLines (i + 1) rest

/-- JavaScript `Array.prototype.join('\n')`. -/
def joinLines : List String → String
  | [] => ""
  | [x] => x
  | x :: y :: rest => x ++ "\n" ++ joinLines (y :: rest)

/-- Embedding of `q.correct_answer.toUpperCase().charCodeAt(0) - 65`; `none` models the
`NaN` produced by `charCodeAt(0)` on the empty string. -/
def correctAnswerIdx (correct_answer : String) : Option Int :=
  match correct_answer.data with
  | [] => none
  | c :: _ => some (((Char.toUpper c).toNat : Int) - 65)

/-- Embedding of `q.options[idx]` used as a truthiness test: present and non-empty. -/
def optionAtIdx (opts : List String) (idx : Int) : Option String :=
  if 0 ≤ idx then
    match opts.get? idx.toNat with
    | some s => if s == "" then none else some s
    | none => none
  else none

/-- Is the option letter at this position a standalone `\b([A-D])\b` match? -/
def isOptionLetterChar (c : Char) : Bool :=
  ('A' ≤ c && c ≤ 'D') || ('a' ≤ c && c ≤ 'd')

/-- JavaScript `\w`. -/
def isWordChar (c : Char) : Bool := c.isAlphanum || c == '_'

/-- All matches of `/\b([A-D])\b/gi`, uppercased
(`answerMatch.map(l => l.toUpperCase())`). `prev` is the character before
the scan position, for the left word boundary. -/
def collectOptionLetters (prev : Option Char) : List Char → List Char
  | [] => []
  | c :: rest =>
    let boundaryBefore := match prev with | none => true | some p => !isWordChar p
    let boundaryAfter := match rest with | [] => true | r :: _ => !isWordChar r
    if isOptionLetterChar c && boundaryBefore && boundaryAfter then
      Char.toUpper c :: collectOptionLetters (some c) rest
    else
      collectOptionLetters (some c) rest

/-- Embedding of `[...new Set(xs)]`: first occurrences, in order. -/
def dedupFirst (seen : List Char) : List Char → List Char
  | [] => []
  | c :: rest =>
    if seen.contains c then dedupFirst seen rest
    else c :: dedupFirst (c :: seen) rest

/-- The `why not X` clauses appended for every named non-correct, present
option (graphManager.ts:390-398).  `idx !== correctIdx` is always true when
`correctIdx` is `NaN`. -/
def whyNotClauses (q : QuizQuestion) : List Char → String
  | [] => ""
  | label :: rest =>
    let idx : Int := (label.toNat : Int) - 65
    let mismatch : Bool :=
      match correctAnswerIdx q.correct_answer with
      | none => true
      | some ci => idx != ci
    (if mismatch then
       match optionAtIdx q.options idx with
       | some opt =>
         "\n\nOption " ++ String.singleton label ++ ") " ++ opt ++
         " is not correct because it does not satisfy the requirements of the question or is not the best answer."
       | none => ""
     else "") ++ whyNotClauses q rest

/-- The direct follow-up answer built at graphManager.ts:388, plus the
appended `why not` clauses; `n` is the 1-indexed question number from the
user's text. -/
def questionResponse (n : Nat) (q : QuizQuestion) (userInput : String) : String :=
  "Q" ++ toString n ++ ": " ++ q.question ++ "\n\nOptions:\n" ++
  joinLines (optionLines 0 q.options) ++
  "\n\nCorrect Answer: " ++ q.correct_answer ++
  "\n\nExplanation: " ++ q.explanation ++
  whyNotClauses q (dedupFirst [] (collectOptionLetters none userInput.data))

/-- The out-of-range reply of graphManager.ts:408. -/
def noSuchQuestionResponse (n : Nat) : String :=
  "Sorry, your current quiz does not have a question " ++ toString n ++
  ". Please check the question number and try again."

/-! ## Dialogue orchestrator (`LangGraphManager.executeGraph`,
graphManager.ts:349-506).  The database, the node executors' completion
calls, and the clock are external collaborators, passed in as `GraphDeps`;
the outcome records the collaborator call count and the persistence write
attempts so that the interception path's frame conditions can be stated. -/

/-- The `User.preferences` record. -/
structure UserPreferences where
  difficulty : Option String := none
  preferred_languages : Option (List String) := none
  learning_style : Option String := none
  explanation_mode : Option String := none
  topics_of_interest : Option (List String) := none
  session_count : Option Nat := none
  preferred_pace : Option String := none
deriving DecidableEq

/-- The hard-coded fallback preferences of graphManager.ts:363-371, used when
`db.getUserById` throws. -/
def fallbackPreferences : UserPreferences :=
  { difficulty := some "beginner",
    preferred_languages := some ["javascript", "react", "typescript"],
    learning_style := some "hands-on",
    explanation_mode := some "simple",
    topics_of_interest :=
      some ["web-development", "frontend", "javascript-fundamentals", "react-hooks"],
    session_count := some 1,
    preferred_pace := some "moderate" }

/-- One `conversation_history` entry. -/
structure HistoryEntry where
  timestamp : String
  user_input : String
  node : String
  response : String
deriving DecidableEq

/-- The `quizContext` object carried in a session context; its `questions`
field may be absent (`quiz.questions && ...` guards for that). -/
structure QuizFollowupContext where
  questions : Option (List QuizQuestion) := none
deriving DecidableEq

/-- The caller-supplied `currentContext`: an open key/value bag, of which the
orchestrator reads these keys.  Absent keys are `none`. -/
structure SessionContext where
  user_preferences : Option UserPreferences := none
  quizContext : Option QuizFollowupContext := none
  user_input : Option String := none
  conversation_history : Option (List HistoryEntry) := none
  available_transitions : Option (List String) := none
  node_output : Option String := none
deriving DecidableEq

/-- The `TutorState.context` record as built at graphManager.ts:423-429. -/
structure TutorContext where
  user_preferences : Option UserPreferences
  quizContext : Option QuizFollowupContext
  user_input : String
  conversation_history : List HistoryEntry
  available_transitions : List String
  node_output : Option String
deriving DecidableEq

/-- The context-initialization object literal: the base fields
(`user_preferences`, `conversation_history`, `available_transitions`,
`user_input`) followed by the spread `...currentContext`, which overrides
every base key the caller's context carries. -/
def buildTutorContext (userPreferences : Option UserPreferences) (userInput : String)
    (currentContext : Option SessionContext) : TutorContext :=
  match currentContext with
  | none =>
    { user_preferences := userPreferences,
      quizContext := none,
      user_input := userInput,
      conversation_history := [],
      available_transitions := [],
      node_output := none }
  | some c =>
    { user_preferences :=
        match c.user_preferences with
        | some p => some p
        | none => userPreferences,
      quizContext := c.quizContext,
      user_input := c.user_input.getD userInput,
      conversation_history := c.conversation_history.getD [],
      available_transitions := c.available_transitions.getD [],
      node_output := c.node_output }

/-- Embedding of `questions[qNum]` where `qNum = parseInt(match[1], 10) - 1`: the user's
number `n` is 1-indexed, `n = 0` indexes `-1` and misses, and an absent
`questions` field misses. -/
def quizQuestionAt (qs : Option (List QuizQuestion)) (n : Nat) : Option QuizQuestion :=
  match qs, n with
  | none, _ => none
  | some _, 0 => none
  | some l, Nat.succ k => l.get? k

/-- The `available_transitions` list as returned from every exit of `executeGraph`. -/
def allTransitions : List String :=
  ["code-feedback", "concept-explainer", "quiz-generator", "mistake-analyzer"]

/-- The catch-block fallback response of graphManager.ts:484. -/
def fallbackResponseText : String :=
  "I'm here to help you learn programming! You can ask me to:\n\n• **Review your code** - Just paste it and I'll provide feedback\n• **Explain concepts** - Ask about any programming topic\n• **Create quizzes** - Test your knowledge with interactive questions\n• **Track progress** - See your learning journey and improvements\n\nWhat would you like to work on today?"

/-- The `session_context` of the returned object: the caller's context
(follow-up interception), the updated tutor context (normal path), or the
minimal `{ user_input, conversation_history: [] }` object (catch block). -/
inductive ResultContext
  | prior (c : SessionContext)
  | updated (c : TutorContext)
  | degraded (user_input : String)
deriving DecidableEq

/-- The object returned by `executeGraph`. -/
structure GraphResult where
  response : String
  current_node : String
  available_transitions : List String
  session_context : ResultContext
  timestamp : String
  iteration_count : Nat
deriving DecidableEq

/-- A run of `executeGraph` together with its observable effects. -/
structure GraphOutcome where
  result : GraphResult
  /-- how many times a node executor (and so the text-completion
  collaborator) was invoked -/
  completionCalls : Nat
  /-- the persistence writes attempted through `saveSessionState` -/
  savedSessions : List (String × TutorContext)
  /-- the context of the `TutorState` handed to the dispatched executor -/
  dispatchedState : Option TutorContext
deriving DecidableEq

/-- The external collaborators of one `executeGraph` call. -/
structure GraphDeps where
  /-- `db.getUserById(userId)?.preferences`; `error` models a throw -/
  getUser : Except Unit (Option UserPreferences)
  /-- the dispatched mode executor (`executeXNode(state)`): may throw -/
  execNode : TutorContext → Except Unit String
  /-- `db.updateChatSession` inside `saveSessionState`: may throw -/
  save : Except Unit Unit
  /-- `new Date().toISOString()` -/
  now : String

/-- The preference lookup with its internal try/catch
(graphManager.ts:357-372). -/
def userPrefsOf (getUser : Except Unit (Option UserPreferences)) :
    Option UserPreferences :=
  match getUser with
  | .ok prefs => prefs
  | .error _ => some fallbackPreferences

/-- The non-intercepted pipeline: build the state, route, dispatch the
executor, append the history entry, attempt persistence (whose own
try/catch swallows failure), and return; a throw from the dispatched
executor falls into the top-level catch block. -/
def executeGraphMain (deps : GraphDeps) (sessionId userInput : String)
    (currentContext : Option SessionContext) : GraphOutcome :=
  let ctx := buildTutorContext (userPrefsOf deps.getUser) userInput currentContext
  let targetNode := determineNode userInput
  match deps.execNode ctx with
  | .error _ =>
    { result :=
        { response := fallbackResponseText,
          current_node := "concept-explainer",
          available_transitions := allTransitions,
          session_context := .degraded userInput,
          timestamp := deps.now, iteration_count := 0 },
      completionCalls := 1, savedSessions := [], dispatchedState := some ctx }
  | .ok resp =>
    let entry : HistoryEntry :=
      { timestamp := deps.now, user_input := userInput,
        node := targetNode, response := resp }
    let ctx2 : TutorContext :=
      { ctx with node_output := some resp,
                 conversation_history := ctx.conversation_history ++ [entry] }
    { result :=
        { response := resp,
          current_node := targetNode,
          available_transitions := allTransitions,
          session_context := .updated ctx2,
          timestamp := deps.now, iteration_count := 0 },
      completionCalls := 1,
      savedSessions := [(sessionId, ctx2)],
      dispatchedState := some ctx }

/-- Embedding of `executeGraph`: the quiz follow-up interception
(graphManager.ts:375-416) runs before the normal pipeline and returns
directly, touching neither the executors nor the store. -/
def executeGraph (deps : GraphDeps) (_userId sessionId userInput : String)
    (currentContext : Option SessionContext) : GraphOutcome :=
  match currentContext with
  | some c =>
    match c.quizContext with
    | some quiz =>
      if questionRefTest userInput.data then
        match extractQuestionRef userInput.data with
        | some n =>
          match quizQuestionAt quiz.questions n with
          | some q =>
            { result :=
                { response := questionResponse n q userInput,
                  current_node := "quiz-generator",
                  available_transitions := allTransitions,
                  session_context := .prior c,
                  timestamp := deps.now, iteration_count := 0 },
              completionCalls := 0, savedSessions := [], dispatchedState := none }
          | none =>
            { result :=
                { response := noSuchQuestionResponse n,
                  current_node := "quiz-generator",
                  available_transitions := allTransitions,
                  session_context := .prior c,
                  timestamp := deps.now, iteration_count := 0 },
              completionCalls := 0, savedSessions := [], dispatchedState := none }
        | none => executeGraphMain deps sessionId userInput currentContext
      else executeGraphMain deps sessionId userInput currentContext
    | none => executeGraphMain deps sessionId userInput currentContext
  | none => executeGraphMain deps sessionId userInput currentContext

/-- The interception guard as one predicate: an active quiz reference in the
prior context and a question-reference pattern in the input. -/
def interceptsQuizFollowup (currentContext : Option SessionContext)
    (userInput : String) : Bool :=
  match currentContext with
  | some c =>
    match c.quizContext with
    | some _ =>
      questionRefTest userInput.data && (extractQuestionRef userInput.data).isSome
    | none => false
  | none => false

/-! ## Substring containment facts used for the follow-up response -/

theorem leadsWith_append (needle rest : List Char) :
    leadsWith needle (needle ++ rest) = true := by
  induction needle with
  | nil => rfl
  | cons c t ih => simp [leadsWith, ih]

theorem containsSub_decomp (pre needle post : List Char) :
    containsSub (pre ++ needle ++ post) needle = true := by
  induction pre with
  | nil =>
    cases needle with
    | nil => cases post <;> rfl
    | cons c t =>
      show (leadsWith (c :: t) ((c :: t) ++ post) ||
            containsSub (t ++ post) (c :: t)) = true
      rw [leadsWith_append, Bool.true_or]
  | cons c pre ih =>
    show (leadsWith needle ((c :: pre) ++ needle ++ post) ||
          containsSub (pre ++ needle ++ post) needle) = true
    rw [ih, Bool.or_true]

theorem strContains_decomp (pre needle post : String) :
    strContains (pre ++ needle ++ post) needle = true := by
  simp only [strContains, String.data_append]
  exact containsSub_decomp pre.data needle.data post.data

theorem joinLines_decomp (x : String) (l : List String) (hx : x ∈ l) :
    ∃ pre post : String, joinLines l = pre ++ x ++ post := by
  induction l with
  | nil => cases hx
  | cons a rest ih =>
    cases rest with
    | nil =>
      rcases List.mem_singleton.mp hx with rfl
      exact ⟨"", "", by simp [joinLines]⟩
    | cons b rest2 =>
      rcases List.mem_cons.mp hx with rfl | hmem
      · exact ⟨"", "\n" ++ joinLines (b :: rest2), by
          simp [joinLines, String.append_assoc]⟩
      · rcases ih hmem with ⟨pre, post, hpp⟩
        exact ⟨a ++ "\n" ++ pre, post, by
          simp [joinLines, hpp, String.append_assoc]⟩

theorem optionLines_mem (i : Nat) (l : List String) (x : String) (hx : x ∈ l) :
    ∃ j : Nat, (String.singleton (Char.ofNat (65 + j)) ++ ") " ++ x) ∈ optionLines i l := by
  induction l generalizing i with
  | nil => cases hx
  | cons a rest ih =>
    rcases List.mem_cons.mp hx with rfl | hmem
    · exact ⟨i, List.mem_cons_self _ _⟩
    · rcases ih (i + 1) hmem with ⟨j, hj⟩
      exact ⟨j, List.mem_cons_of_mem _ hj⟩

theorem strContains_questionResponse_option (n : Nat) (q : QuizQuestion)
    (userInput opt : String) (hopt : opt ∈ q.options) :
    strContains (questionResponse n q userInput) opt = true := by
  rcases optionLines_mem 0 q.options opt hopt with ⟨j, hj⟩
  rcases joinLines_decomp _ _ hj with ⟨pre, post, hpp⟩
  unfold questionResponse
  rw [hpp]
  have :
      "Q" ++ toString n ++ ": " ++ q.question ++ "\n\nOptions:\n" ++
        (pre ++ (String.singleton (Char.ofNat (65 + j)) ++ ") " ++ opt) ++ post) ++
        "\n\nCorrect Answer: " ++ q.correct_answer ++
        "\n\nExplanation: " ++ q.explanation ++
        whyNotClauses q (dedupFirst [] (collectOptionLetters none userInput.data)) =
      ("Q" ++ toString n ++ ": " ++ q.question ++ "\n\nOptions:\n" ++ pre ++
        (String.singleton (Char.ofNat (65 + j)) ++ ") ")) ++ opt ++
        (post ++ "\n\nCorrect Answer: " ++ q.correct_answer ++
         "\n\nExplanation: " ++ q.explanation ++
         whyNotClauses q (dedupFirst [] (collectOptionLetters none userInput.data))) := by
    simp [String.append_assoc]
  rw [this]
  exact strContains_decomp _ _ _

theorem strContains_questionResponse_question (n : Nat) (q : QuizQuestion)
    (userInput : String) :
    strContains (questionResponse n q userInput) q.question = true := by
  unfold questionResponse
  have :
      "Q" ++ toString n ++ ": " ++ q.question ++ "\n\nOptions:\n" ++
        joinLines (optionLines 0 q.options) ++
        "\n\nCorrect Answer: " ++ q.correct_answer ++
        "\n\nExplanation: " ++ q.explanation ++
        whyNotClauses q (dedupFirst [] (collectOptionLetters none userInput.data)) =
      ("Q" ++ toString n ++ ": ") ++ q.question ++
        ("\n\nOptions:\n" ++ joinLines (optionLines 0 q.options) ++
         "\n\nCorrect Answer: " ++ q.correct_answer ++
         "\n\nExplanation: " ++ q.explanation ++
         whyNotClauses q (dedupFirst [] (collectOptionLetters none userInput.data))) := by
    simp [String.append_assoc]
  rw [this]
  exact strContains_decomp _ _ _

theorem strContains_questionResponse_correct (n : Nat) (q : QuizQuestion)
    (userInput : String) :
    strContains (questionResponse n q userInput) q.correct_answer = true := by
  unfold questionResponse
  have :
      "Q" ++ toString n ++ ": " ++ q.question ++ "\n\nOptions:\n" ++
        joinLines (optionLines 0 q.options) ++
        "\n\nCorrect Answer: " ++ q.correct_answer ++
        "\n\nExplanation: " ++ q.explanation ++
        whyNotClauses q (dedupFirst [] (collectOptionLetters none userInput.data)) =
      ("Q" ++ toString n ++ ": " ++ q.question ++ "\n\nOptions:\n" ++
        joinLines (optionLines 0 q.options) ++ "\n\nCorrect Answer: ") ++
        q.correct_answer ++
        ("\n\nExplanation: " ++ q.explanation ++
         whyNotClauses q (dedupFirst [] (collectOptionLetters none userInput.data))) := by
    simp [String.append_assoc]
  rw [this]
  exact strContains_decomp _ _ _

theorem strContains_questionResponse_explanation (n : Nat) (q : QuizQuestion)
    (userInput : String) :
    strContains (questionResponse n q userInput) q.explanation = true := by
  unfold questionResponse
  have :
      "Q" ++ toString n ++ ": " ++ q.question ++ "\n\nOptions:\n" ++
        joinLines (optionLines 0 q.options) ++
        "\n\nCorrect Answer: " ++ q.correct_answer ++
        "\n\nExplanation: " ++ q.explanation ++
        whyNotClauses q (dedupFirst [] (collectOptionLetters none userInput.data)) =
      ("Q" ++ toString n ++ ": " ++ q.question ++ "\n\nOptions:\n" ++
        joinLines (optionLines 0 q.options) ++ "\n\nCorrect Answer: " ++
        q.correct_answer ++ "\n\nExplanation: ") ++ q.explanation ++
        whyNotClauses q (dedupFirst [] (collectOptionLetters none userInput.data)) := by
    simp [String.append_assoc]
  rw [this]
  exact strContains_decomp _ _ _

/-- C3: whenever the prior context carries an active quiz reference and the
input matches a question-reference pattern yielding number `n`, `executeGraph`
answers directly: if question `n` (1-indexed in the text, 0-indexed into the
stored list) exists, the response is the built follow-up answer and contains
the question's text, every option, the correct answer and the explanation; if
`n` is out of range, the response is the direct no-such-question message; both
are tagged `quiz-generator` and the text-completion collaborator is never
invoked. -/
theorem executeGraph_quiz_followup (deps : GraphDeps)
    (userId sessionId userInput : String) (c : SessionContext)
    (quiz : QuizFollowupContext) (n : Nat)
    (hq : c.quizContext = some quiz)
    (hx : extractQuestionRef userInput.data = some n)
    (out : GraphOutcome)
    (hout : out = executeGraph deps userId sessionId userInput (some c)) :
    (∀ q, quizQuestionAt quiz.questions n = some q →
      out.result.response = questionResponse n q userInput ∧
      strContains out.result.response q.question = true ∧
      (∀ opt ∈ q.options, strContains out.result.response opt = true) ∧
      strContains out.result.response q.correct_answer = true ∧
      strContains out.result.response q.explanation = true) ∧
    (quizQuestionAt quiz.questions n = none →
      out.result.response = noSuchQuestionResponse n) ∧
    out.result.current_node = "quiz-generator" ∧
    out.completionCalls = 0 := by
  have htest := questionRefTest_of_extract hx
  subst hout
  simp only [executeGraph, hq, htest, hx, if_true]
  cases hqa : quizQuestionAt quiz.questions n with
  | some q =>
    refine ⟨fun q2 hq2 => ?_, fun hnone => Option.noConfusion hnone, rfl, rfl⟩
    obtain rfl : q = q2 := Option.some.inj hq2
    exact ⟨rfl, strContains_questionResponse_question n q userInput,
      fun opt hopt => strContains_questionResponse_option n q userInput opt hopt,
      strContains_questionResponse_correct n q userInput,
      strContains_questionResponse_explanation n q userInput⟩
  | none =>
    exact ⟨fun q2 hq2 => Option.noConfusion hq2, fun _ => rfl, rfl, rfl⟩

/-- Collaborators for the C3 witness run; the executor is never consulted. -/
def c3Deps : GraphDeps :=
  { getUser := .ok none, execNode := fun _ => .ok "unused",
    save := .ok (), now := "2025-01-01" }

/-- Question 2 of the witness quiz. -/
def c3Question2 : QuizQuestion :=
  ⟨"q2", "mcq", "What does Array.map return?",
   ["a new array", "the same array", "undefined", "a number"],
   "", "a", "map builds a new array from the callback results.",
   "beginner", ["javascript"]⟩

/-- The witness quiz carried in the prior context. -/
def c3Quiz : QuizFollowupContext :=
  { questions := some
      [⟨"q1", "mcq", "What is let?", ["a keyword", "a function", "an operator", "a tag"],
        "", "a", "let declares a block-scoped variable.", "beginner", ["javascript"]⟩,
       c3Question2] }

/-- The prior session context of the C3 witness. -/
def c3Context : SessionContext := { quizContext := some c3Quiz }

/-- Witness for C3: `"what about question 2"` against a two-question quiz. -/
theorem executeGraph_quiz_followup_witness :
    (c3Context.quizContext = some c3Quiz ∧
     extractQuestionRef "what about question 2".data = some 2) ∧
    (executeGraph c3Deps "u1" "s1" "what about question 2" (some c3Context)).result.response
      = questionResponse 2 c3Question2 "what about question 2" ∧
    (executeGraph c3Deps "u1" "s1" "what about question 2" (some c3Context)).result.current_node
      = "quiz-generator" ∧
    (executeGraph c3Deps "u1" "s1" "what about question 2" (some c3Context)).completionCalls
      = 0 := by
  have h := executeGraph_quiz_followup c3Deps "u1" "s1" "what about question 2"
    c3Context c3Quiz 2 rfl (by decide) _ rfl
  exact ⟨⟨rfl, by decide⟩, (h.1 c3Question2 (by decide)).1, h.2.2.1, h.2.2.2⟩

/-- C10: a turn taken through the quiz follow-up interception path returns
before the normal pipeline: no executor is dispatched, no history entry is
built, no persistence write is attempted, `iteration_count` is 0, and the
returned `session_context` is exactly the caller-supplied prior context. -/
theorem executeGraph_followup_frame (deps : GraphDeps)
    (userId sessionId userInput : String) (c : SessionContext)
    (quiz : QuizFollowupContext) (n : Nat)
    (hq : c.quizContext = some quiz)
    (hx : extractQuestionRef userInput.data = some n)
    (out : GraphOutcome)
    (hout : out = executeGraph deps userId sessionId userInput (some c)) :
    out.savedSessions = [] ∧
    out.dispatchedState = none ∧
    out.result.iteration_count = 0 ∧
    out.result.session_context = ResultContext.prior c := by
  have htest := questionRefTest_of_extract hx
  subst hout
  simp only [executeGraph, hq, htest, hx, if_true]
  cases hqa : quizQuestionAt quiz.questions n <;> exact ⟨rfl, rfl, rfl, rfl⟩

/-- Collaborators for the C10 witness run. -/
def c10Deps : GraphDeps :=
  { getUser := .error (), execNode := fun _ => .ok "unused",
    save := .error (), now := "2025-02-02" }

/-- The one-question witness quiz for C10. -/
def c10Quiz : QuizFollowupContext :=
  { questions := some
      [⟨"q1", "mcq", "What is const?", ["a keyword", "a function", "an operator", "a tag"],
        "", "a", "const declares a constant binding.", "beginner", ["javascript"]⟩] }

/-- The prior session context of the C10 witness, with some history. -/
def c10Context : SessionContext :=
  { quizContext := some c10Quiz,
    user_input := some "start a quiz",
    conversation_history := some
      [{ timestamp := "2025-02-01", user_input := "start a quiz",
         node := "quiz-generator", response := "[Quiz Mode] here is your quiz" }] }

/-- Witness for C10: `"why not q1"` intercepted against the stored quiz. -/
theorem executeGraph_followup_frame_witness :
    (c10Context.quizContext = some c10Quiz ∧
     extractQuestionRef "why not q1".data = some 1) ∧
    (executeGraph c10Deps "u2" "s2" "why not q1" (some c10Context)).savedSessions = [] ∧
    (executeGraph c10Deps "u2" "s2" "why not q1" (some c10Context)).dispatchedState = none ∧
    (executeGraph c10Deps "u2" "s2" "why not q1" (some c10Context)).result.iteration_count = 0 ∧
    (executeGraph c10Deps "u2" "s2" "why not q1" (some c10Context)).result.session_context
      = ResultContext.prior c10Context := by
  have h := executeGraph_followup_frame c10Deps "u2" "s2" "why not q1"
    c10Context c10Quiz 1 rfl (by decide) _ rfl
  exact ⟨⟨rfl, by decide⟩, h.1, h.2.1, h.2.2.1, h.2.2.2⟩

/-! ## Error containment in `executeGraph` (C8) -/

theorem executeGraph_not_intercepted (deps : GraphDeps)
    (userId sessionId userInput : String) (currentContext : Option SessionContext)
    (h : interceptsQuizFollowup currentContext userInput = false) :
    executeGraph deps userId sessionId userInput currentContext =
      executeGraphMain deps sessionId userInput currentContext := by
  cases currentContext with
  | none => rfl
  | some c =>
    cases hq : c.quizContext with
    | none => simp [executeGraph, hq]
    | some quiz =>
      simp only [interceptsQuizFollowup, hq] at h
      simp only [executeGraph, hq]
      cases ht : questionRefTest userInput.data with
      | false => simp [ht]
      | true =>
        rw [ht] at h
        cases hx : extractQuestionRef userInput.data with
        | none => simp [ht, hx]
        | some n => rw [hx] at h; simp at h

theorem executeGraph_transitions (deps : GraphDeps)
    (userId sessionId userInput : String) (currentContext : Option SessionContext) :
    (executeGraph deps userId sessionId userInput currentContext).result.available_transitions
      = allTransitions := by
  have hmain : ∀ cc, (executeGraphMain deps sessionId userInput cc).result.available_transitions
      = allTransitions := by
    intro cc
    cases h : deps.execNode (buildTutorContext (userPrefsOf deps.getUser) userInput cc) <;>
      simp [executeGraphMain, h]
  cases currentContext with
  | none => exact hmain none
  | some c =>
    cases hq : c.quizContext with
    | none => simpa [executeGraph, hq] using hmain (some c)
    | some quiz =>
      simp only [executeGraph, hq]
      cases ht : questionRefTest userInput.data with
      | false => simpa [ht] using hmain (some c)
      | true =>
        simp only [ht, if_true]
        cases hx : extractQuestionRef userInput.data with
        | none => exact hmain (some c)
        | some n => cases hqa : quizQuestionAt quiz.questions n <;> simp [hqa, allTransitions]

/-- Counterexample for C8: a persistence failure is caught inside the save
step, not converted into the generic fallback — the executor's normal
response is still returned, tagged with the routed node, not
`concept-explainer`. -/
theorem executeGraph_persistence_counterexample :
    (executeGraph
        { getUser := .ok none, execNode := fun _ => .ok "[Quiz Mode] sample quiz reply",
          save := .error (), now := "t" }
        "u" "s" "make me a quiz" none).result.response
      = "[Quiz Mode] sample quiz reply" ∧
    (executeGraph
        { getUser := .ok none, execNode := fun _ => .ok "[Quiz Mode] sample quiz reply",
          save := .error (), now := "t" }
        "u" "s" "make me a quiz" none).result.response ≠ fallbackResponseText ∧
    (executeGraph
        { getUser := .ok none, execNode := fun _ => .ok "[Quiz Mode] sample quiz reply",
          save := .error (), now := "t" }
        "u" "s" "make me a quiz" none).result.current_node = "quiz-generator" := by
  decide

/-- C8 (amended): `executeGraph` is a total function — no exception reaches
the transport layer — and always returns `available_transitions` equal to the
four mode tags; on a non-intercepted turn, an exception thrown by the
dispatched executor is caught at the top level and becomes the generic
four-capability fallback tagged `concept-explainer` with the minimal degraded
context, while a persistence failure is swallowed inside the save step and the
executor's normal response is returned, tagged with the routed node. -/
theorem executeGraph_error_containment (deps : GraphDeps)
    (userId sessionId userInput : String) (currentContext : Option SessionContext)
    (out : GraphOutcome)
    (hout : out = executeGraph deps userId sessionId userInput currentContext) :
    out.result.available_transitions = allTransitions ∧
    (interceptsQuizFollowup currentContext userInput = false →
      (deps.execNode
          (buildTutorContext (userPrefsOf deps.getUser) userInput currentContext)
          = Except.error () →
        out.result.response = fallbackResponseText ∧
        out.result.current_node = "concept-explainer" ∧
        out.result.session_context = ResultContext.degraded userInput ∧
        out.savedSessions = []) ∧
      (∀ r, deps.execNode
          (buildTutorContext (userPrefsOf deps.getUser) userInput currentContext)
          = Except.ok r →
        out.result.response = r ∧
        out.result.current_node = determineNode userInput)) := by
  subst hout
  refine ⟨executeGraph_transitions deps userId sessionId userInput currentContext,
    fun hni => ?_⟩
  rw [executeGraph_not_intercepted deps userId sessionId userInput currentContext hni]
  constructor
  · intro herr
    simp [executeGraphMain, herr]
  · intro r hok
    simp [executeGraphMain, hok]

/-- Witness for C8 (amended): a throwing executor on a plain
`"explain closures"` turn yields the generic fallback. -/
theorem executeGraph_error_containment_witness :
    (interceptsQuizFollowup none "explain closures" = false ∧
     (executeGraph { getUser := .error (), execNode := fun _ => .error (),
                     save := .ok (), now := "t" }
        "u" "s" "explain closures" none).result.available_transitions = allTransitions ∧
     (executeGraph { getUser := .error (), execNode := fun _ => .error (),
                     save := .ok (), now := "t" }
        "u" "s" "explain closures" none).result.response = fallbackResponseText ∧
     (executeGraph { getUser := .error (), execNode := fun _ => .error (),
                     save := .ok (), now := "t" }
        "u" "s" "explain closures" none).result.current_node = "concept-explainer") := by
  have h := executeGraph_error_containment
    { getUser := .error (), execNode := fun _ => .error (), save := .ok (), now := "t" }
    "u" "s" "explain closures" none _ rfl
  have h2 := (h.2 rfl).1 rfl
  exact ⟨rfl, h.1, h2.1, h2.2.1⟩

/-- C6: the context-initialization spread `...currentContext` overrides the
`user_input: userInput` base field, so on a turn whose prior context carries a
`user_input` key (which every context persisted by `saveSessionState` does),
the dispatched executor sees the previous turn's text instead of the current
raw input — here the executor echoes its `state.context.user_input` and the
stale text even becomes the response. -/
theorem executeGraph_stale_user_input :
    ((executeGraph
        { getUser := .ok none, execNode := fun ctx => .ok ctx.user_input,
          save := .ok (), now := "t" }
        "u" "s" "explain closures please"
        (some { user_input := some "previous turn text" })).dispatchedState.map
      TutorContext.user_input) = some "previous turn text" ∧
    ((executeGraph
        { getUser := .ok none, execNode := fun ctx => .ok ctx.user_input,
          save := .ok (), now := "t" }
        "u" "s" "explain closures please"
        (some { user_input := some "previous turn text" })).dispatchedState.map
      TutorContext.user_input) ≠ some "explain closures please" ∧
    (executeGraph
        { getUser := .ok none, execNode := fun ctx => .ok ctx.user_input,
          save := .ok (), now := "t" }
        "u" "s" "explain closures please"
        (some { user_input := some "previous turn text" })).result.response
      = "previous turn text" ∧
    (buildTutorContext (userPrefsOf (.ok none)) "explain closures please"
        (some { user_input := some "previous turn text" })).user_input
      = "previous turn text" := by
  decide

/-! ## Upgrade-tier flow (`handleStartUpgradeQuiz` / `handleUpgradeQuizSubmit`
in the dashboard component) -/

/-- The promotion chain `if newLevel === 'beginner' ... else 'advanced'`;
the argument is `user.preferences.difficulty`, possibly absent. -/
def promoteDifficulty (difficulty : Option String) : String :=
  if difficulty == some "beginner" then "intermediate"
  else if difficulty == some "intermediate" then "advanced"
  else "advanced"

/-- The fixed quiz length: `handleStartUpgradeQuiz` requests `total_questions: 10`. -/
def upgradeQuizTotalQuestions : Nat := 10

/-- The `setUpgradeQuizResult({ score, total, passed })` record. -/
structure UpgradeQuizOutcome where
  score : Nat
  total : Nat
  passed : Bool
deriving DecidableEq

/-- The submission handler's core: `passed = score >= 6`; on a pass, the
user's preferences are re-persisted with the one-step-promoted difficulty
(`some` = the `updateUserPreferences` call made with the new record),
otherwise no update call happens (`none`). -/
def handleUpgradeQuizSubmit (prefs : UserPreferences) (score total : Nat) :
    UpgradeQuizOutcome × Option UserPreferences :=
  let passed := decide (6 ≤ score)
  ({ score := score, total := total, passed := passed },
   if passed then
     some { prefs with difficulty := some (promoteDifficulty prefs.difficulty) }
   else none)

/-- C9: submitting the fixed 10-question upgrade quiz with a score of at
least 6 persists the user's preferences with the difficulty promoted exactly
one step along beginner → intermediate → advanced (capping at advanced); a
score below 6 performs no preference update. -/
theorem upgradeQuiz_promotion (prefs : UserPreferences) (score total : Nat) :
    (6 ≤ score →
      (handleUpgradeQuizSubmit prefs score total).2 =
        some { prefs with difficulty := some (promoteDifficulty prefs.difficulty) } ∧
      (handleUpgradeQuizSubmit prefs score total).1.passed = true) ∧
    (score < 6 →
      (handleUpgradeQuizSubmit prefs score total).2 = none ∧
      (handleUpgradeQuizSubmit prefs score total).1.passed = false) ∧
    promoteDifficulty (some "beginner") = "intermediate" ∧
    promoteDifficulty (some "intermediate") = "advanced" ∧
    promoteDifficulty (some "advanced") = "advanced" ∧
    upgradeQuizTotalQuestions = 10 := by
  refine ⟨fun h => ?_, fun h => ?_, by decide, by decide, by decide, rfl⟩
  · simp [handleUpgradeQuizSubmit, h]
  · have hn : ¬ (6 ≤ score) := Nat.not_le.mpr h
    simp [handleUpgradeQuizSubmit, hn]

/-- Witness for C9: a beginner scoring 7/10 is promoted to intermediate and
persisted; scoring 5/10 triggers no update. -/
theorem upgradeQuiz_promotion_witness :
    (handleUpgradeQuizSubmit { difficulty := some "beginner" } 7 10).2 =
      some { difficulty := some "intermediate" } ∧
    (handleUpgradeQuizSubmit { difficulty := some "beginner" } 5 10).2 = none := by
  constructor
  · have h := (upgradeQuiz_promotion { difficulty := some "beginner" } 7 10).1 (by decide)
    exact h.1.trans (by decide)
  · exact ((upgradeQuiz_promotion { difficulty := some "beginner" } 5 10).2.1 (by decide)).1

end Tutor
